import Mathlib

/-!
Verification of the voice-transcriber repository (client `voice_notes.py`,
server `whisper_server.py`) against its natural-language specification.

The development shallowly embeds the parts of the program the claims are
about: WAV container encoding (`audio_to_wav_bytes`), the server's
`/transcribe` handler (temporary-file lifecycle, success response, error
response), and the client's main loop (empty-capture handling, console
preview, note writing, error handling).
-/

namespace VoiceTranscriber

/-! ## WAV container (client `audio_to_wav_bytes`)

`audio_to_wav_bytes` feeds a mono, 16-bit, 16000 Hz numpy array through
Python's `wave` module, which emits a 44-byte RIFF/WAVE header followed by
the raw little-endian two's-complement sample bytes. Bytes are modelled as
`Nat` (each < 256), samples as `Int` in the signed 16-bit range. -/

/-- Little-endian 16-bit encoding of a natural number (two bytes). -/
def u16le (n : Nat) : List Nat := [n % 256, n / 256 % 256]

/-- Little-endian 32-bit encoding of a natural number (four bytes). -/
def u32le (n : Nat) : List Nat :=
  [n % 256, n / 256 % 256, n / 65536 % 256, n / 16777216 % 256]

/-- A sample is a 16-bit signed integer. -/
def ValidSample (s : Int) : Prop := -32768 ≤ s ∧ s ≤ 32767

/-- Two's-complement little-endian byte encoding of one 16-bit sample,
as produced by `numpy.ndarray.tobytes` on an `int16` array. -/
def i16le (s : Int) : List Nat := u16le (s % 65536).toNat

/-- The raw data bytes of the WAV file: each sample in order, two bytes each
(`audio.tobytes()`). -/
def sampleBytes : List Int → List Nat
  | [] => []
  | s :: rest => i16le s ++ sampleBytes rest

/-- `audio_to_wav_bytes` (client, lines 68-77): the byte sequence produced by
Python's `wave` module for a mono (`setnchannels(1)`), 16-bit
(`setsampwidth(2)`), 16000 Hz (`setframerate(SAMPLE_RATE)`) stream whose
frames are `audio.tobytes()`: the RIFF chunk header, the `fmt ` chunk
(PCM, 1 channel, rate 16000, byte rate 32000, block align 2, 16 bits),
the `data` chunk header, then the sample bytes. -/
def audio_to_wav_bytes (audio : List Int) : List Nat :=
  let dataSize := 2 * audio.length
  [82, 73, 70, 70] ++ u32le (36 + dataSize) ++
  [87, 65, 86, 69,
   102, 109, 116, 32, 16, 0, 0, 0, 1, 0, 1, 0,
   128, 62, 0, 0, 0, 125, 0, 0, 2, 0, 16, 0,
   100, 97, 116, 97] ++ u32le dataSize ++ sampleBytes audio

/-- Decode two bytes as a little-endian two's-complement 16-bit integer. -/
def decodeI16 (lo hi : Nat) : Int :=
  let u := lo + 256 * hi
  if u < 32768 then (u : Int) else (u : Int) - 65536

/-- Decode a byte sequence as consecutive little-endian 16-bit samples. -/
def decodeSamples : List Nat → List Int
  | lo :: hi :: rest => decodeI16 lo hi :: decodeSamples rest
  | _ => []

/-- WAV decoder: checks the fixed header fields written by
`audio_to_wav_bytes` (RIFF/WAVE tags, PCM `fmt ` chunk for mono 16-bit
16000 Hz audio, `data` tag; the two chunk-size fields are not inspected)
and decodes the payload bytes as 16-bit samples. -/
def wav_decode (bytes : List Nat) : Option (List Int) :=
  match bytes with
  | 82 :: 73 :: 70 :: 70 :: _ :: _ :: _ :: _ ::
    87 :: 65 :: 86 :: 69 ::
    102 :: 109 :: 116 :: 32 :: 16 :: 0 :: 0 :: 0 :: 1 :: 0 :: 1 :: 0 ::
    128 :: 62 :: 0 :: 0 :: 0 :: 125 :: 0 :: 0 :: 2 :: 0 :: 16 :: 0 ::
    100 :: 97 :: 116 :: 97 :: _ :: _ :: _ :: _ :: rest =>
      some (decodeSamples rest)
  | _ => none

lemma decodeI16_i16le {s : Int} (h : ValidSample s) :
    decodeI16 ((s % 65536).toNat % 256) ((s % 65536).toNat / 256 % 256) = s := by
  obtain ⟨h1, h2⟩ := h
  simp only [decodeI16]
  split <;> omega

lemma decodeSamples_sampleBytes {audio : List Int}
    (h : ∀ s ∈ audio, ValidSample s) :
    decodeSamples (sampleBytes audio) = audio := by
  induction audio with
  | nil => rfl
  | cons s rest ih =>
    have hs : ValidSample s := h s (List.mem_cons_self s rest)
    have hrest : ∀ x ∈ rest, ValidSample x := fun x hx => h x (List.mem_cons_of_mem s hx)
    simp only [sampleBytes, i16le, u16le, List.cons_append, List.nil_append,
      decodeSamples]
    rw [decodeI16_i16le hs]
    show s :: decodeSamples (sampleBytes rest) = s :: rest
    rw [ih hrest]

end VoiceTranscriber

namespace VoiceTranscriber

/-- C1: encoding a non-empty sequence of 16-bit signed mono samples with
`audio_to_wav_bytes` and decoding the resulting WAV byte sequence reproduces
the original sample sequence exactly. -/
theorem wav_roundtrip (audio : List Int) (hne : audio ≠ [])
    (hv : ∀ s ∈ audio, ValidSample s) :
    wav_decode (audio_to_wav_bytes audio) = some audio := by
  have : wav_decode (audio_to_wav_bytes audio)
      = some (decodeSamples (sampleBytes audio)) := by
    simp only [audio_to_wav_bytes, u32le, List.cons_append, List.nil_append]
    rfl
  rw [this, decodeSamples_sampleBytes hv]

/-- Witness for C1 at the concrete sample sequence `[1000, -32768, 32767, 0]`. -/
theorem wav_roundtrip_witness :
    wav_decode (audio_to_wav_bytes [1000, -32768, 32767, 0])
      = some [1000, -32768, 32767, 0] :=
  wav_roundtrip [1000, -32768, 32767, 0] (by decide)
    (by intro s hs; fin_cases hs <;> constructor <;> decide)

/-! ## Server `/transcribe` handler (`whisper_server.py`, lines 24-47)

The handler is modelled as a function of an environment recording the
outcome of each effectful step (`tempfile.mkstemp`, `await audio.read()`,
writing the temp file, `model.transcribe`): each either succeeds with a
value or raises an exception carrying a message. The handler's control
flow (try / except / finally) is translated step by step. -/

/-- One recognized segment returned by `model.transcribe`. -/
structure Segment where
  text : String

/-- The `info` value returned by `model.transcribe`: detected language and
audio duration (modelled as a rational number of seconds). -/
structure TransInfo where
  language : String
  duration : ℚ

/-- Python's `str.strip()`: remove leading and trailing whitespace. -/
def pyStrip (s : String) : String :=
  ⟨((s.data.dropWhile Char.isWhitespace).reverse.dropWhile Char.isWhitespace).reverse⟩

/-- The segment concatenation on the success path (line 36):
`" ".join(segment.text.strip() for segment in segments)`. -/
def transcribeText (segments : List Segment) : String :=
  String.intercalate " " (segments.map (fun s => pyStrip s.text))

/-- Round-half-to-even on rationals, the rounding mode of Python's
built-in `round`. -/
def roundHalfEven (q : ℚ) : ℤ :=
  let f := ⌊q⌋
  if q - f < 1 / 2 then f
  else if 1 / 2 < q - f then f + 1
  else if f % 2 = 0 then f else f + 1

/-- `round(x, 2)` (line 41): round to 2 decimal places, half to even. -/
def round2 (q : ℚ) : ℚ := (roundHalfEven (q * 100) : ℚ) / 100

/-- Environment of one `/transcribe` request: the result of each effectful
step the handler performs, plus whether some external actor removed the
temporary file before the `finally` cleanup runs. -/
structure ServerEnv where
  /-- `tempfile.mkstemp(suffix=suffix)` (line 30): the temp path, or an
  exception message. On success the file exists. -/
  mkstemp : Except String String
  /-- `await audio.read()` (line 31): uploaded bytes, or an exception. -/
  readUpload : Except String (List Nat)
  /-- `tmp.write(content)` inside `with open(fd, "wb")` (lines 32-33):
  unit, or an exception. -/
  writeTmp : Except String Unit
  /-- `model.transcribe(tmp_path, beam_size=5)` (line 35): the segments and
  info, or an exception. -/
  modelTranscribe : Except String (List Segment × TransInfo)
  /-- Whether the temporary file was already absent when the `finally`
  block's `Path(tmp_path).unlink(missing_ok=True)` runs. -/
  tmpVanished : Bool

/-- Outcome of one `/transcribe` request: the HTTP response produced and
the fate of the temporary file. -/
structure HandlerOutcome where
  /-- HTTP status: 200 on success, 500 via `HTTPException` on error. -/
  status : Nat
  /-- `text` field of the success JSON body. -/
  text : Option String
  /-- `language` field of the success JSON body. -/
  language : Option String
  /-- `duration` field of the success JSON body. -/
  duration : Option ℚ
  /-- `detail` field of the error JSON body. -/
  detail : Option String
  /-- Whether `mkstemp` ran to completion, i.e. a temp file was created. -/
  tmpCreated : Bool
  /-- Whether the temporary file still exists after the handler returns. -/
  tmpExistsAfter : Bool
  /-- An exception raised by the cleanup itself (`unlink` without
  `missing_ok` would raise on an absent file); `none` means cleanup never
  raises. -/
  cleanupError : Option String

/-- `Path(tmp_path).unlink(missing_ok=True)` (line 47): removes the file if
present; with `missing_ok=True` an absent file is tolerated silently.
Returns (file exists afterwards, exception raised). -/
def unlink_missing_ok (fileExists : Bool) : Bool × Option String :=
  (false, none)

/-- The error exit path: `except Exception as e: raise
HTTPException(status_code=500, detail=str(e))` (lines 43-44), followed by
the `finally` cleanup (lines 45-47). `created` tells whether `tmp_path` is
set; cleanup runs only in that case (`if tmp_path:`). -/
def errorOutcome (e : String) (created fileExists : Bool) : HandlerOutcome :=
  let cleanup := if created then unlink_missing_ok fileExists else (fileExists, none)
  { status := 500, text := none, language := none, duration := none,
    detail := some e, tmpCreated := created,
    tmpExistsAfter := cleanup.1, cleanupError := cleanup.2 }

/-- The `/transcribe` handler (`whisper_server.py`, lines 24-47), as a
function of the request environment. -/
def transcribe_handler (env : ServerEnv) : HandlerOutcome :=
  match env.mkstemp with
  | .error e => errorOutcome e false false
  | .ok _tmp_path =>
    let fileExists := !env.tmpVanished
    match env.readUpload with
    | .error e => errorOutcome e true fileExists
    | .ok _content =>
      match env.writeTmp with
      | .error e => errorOutcome e true fileExists
      | .ok _ =>
        match env.modelTranscribe with
        | .error e => errorOutcome e true fileExists
        | .ok (segments, info) =>
          let cleanup := unlink_missing_ok fileExists
          { status := 200, text := some (transcribeText segments),
            language := some info.language,
            duration := some (round2 info.duration),
            detail := none, tmpCreated := true,
            tmpExistsAfter := cleanup.1, cleanupError := cleanup.2 }

/-- The first exception raised during the handler's try block, following
the handler's own step order; `none` when every step succeeds. -/
def firstError (env : ServerEnv) : Option String :=
  match env.mkstemp with
  | .error e => some e
  | .ok _ =>
    match env.readUpload with
    | .error e => some e
    | .ok _ =>
      match env.writeTmp with
      | .error e => some e
      | .ok _ =>
        match env.modelTranscribe with
        | .error e => some e
        | .ok _ => none

/-- C2: on every request in which the temporary file was created, the file
no longer exists after the handler returns — on the success path and on
every raising path — and the cleanup itself never raises, even when the
file was already absent. -/
theorem tmp_file_always_removed (env : ServerEnv)
    (h : (transcribe_handler env).tmpCreated = true) :
    (transcribe_handler env).tmpExistsAfter = false ∧
    (transcribe_handler env).cleanupError = none := by
  obtain ⟨m, r, w, t, v⟩ := env
  cases m with
  | error e => simp [transcribe_handler, errorOutcome] at h
  | ok p =>
    cases r with
    | error e => simp [transcribe_handler, errorOutcome, unlink_missing_ok]
    | ok c =>
      cases w with
      | error e => simp [transcribe_handler, errorOutcome, unlink_missing_ok]
      | ok u =>
        cases t with
        | error e => simp [transcribe_handler, errorOutcome, unlink_missing_ok]
        | ok st =>
          obtain ⟨segs, info⟩ := st
          simp [transcribe_handler, unlink_missing_ok]

/-- Witness for C2: a request where the model call raises and the file has
already vanished before cleanup. -/
theorem tmp_file_always_removed_witness :
    (transcribe_handler
      { mkstemp := .ok "/tmp/tmpabc.wav", readUpload := .ok [82, 73],
        writeTmp := .ok (), modelTranscribe := .error "CUDA out of memory",
        tmpVanished := true }).tmpExistsAfter = false ∧
    (transcribe_handler
      { mkstemp := .ok "/tmp/tmpabc.wav", readUpload := .ok [82, 73],
        writeTmp := .ok (), modelTranscribe := .error "CUDA out of memory",
        tmpVanished := true }).cleanupError = none :=
  tmp_file_always_removed _ (by rfl)

/-- C4: on every successful request, the response has status 200, `text`
equal to the segments' individually-trimmed texts joined with single
spaces, `language` equal to the detected language, and `duration` equal to
the reported duration rounded to 2 decimal places. -/
theorem transcribe_success_response (env : ServerEnv) (p : String)
    (c : List Nat) (segments : List Segment) (info : TransInfo)
    (h1 : env.mkstemp = .ok p) (h2 : env.readUpload = .ok c)
    (h3 : env.writeTmp = .ok ()) (h4 : env.modelTranscribe = .ok (segments, info)) :
    (transcribe_handler env).status = 200 ∧
    (transcribe_handler env).text = some (transcribeText segments) ∧
    (transcribe_handler env).language = some info.language ∧
    (transcribe_handler env).duration = some (round2 info.duration) := by
  obtain ⟨m, r, w, t, v⟩ := env
  simp only at h1 h2 h3 h4
  subst h1 h2 h3 h4
  simp [transcribe_handler, unlink_missing_ok]

/-- Witness for C4: a concrete successful request with two segments whose
texts carry surrounding whitespace and a duration of 2.718 s. -/
theorem transcribe_success_response_witness :
    (transcribe_handler
      { mkstemp := .ok "/tmp/tmpabc.wav", readUpload := .ok [82, 73],
        writeTmp := .ok (),
        modelTranscribe := .ok ([⟨" hello "⟩, ⟨"world "⟩], ⟨"en", 2718 / 1000⟩),
        tmpVanished := false }).status = 200 ∧
    (transcribe_handler
      { mkstemp := .ok "/tmp/tmpabc.wav", readUpload := .ok [82, 73],
        writeTmp := .ok (),
        modelTranscribe := .ok ([⟨" hello "⟩, ⟨"world "⟩], ⟨"en", 2718 / 1000⟩),
        tmpVanished := false }).text = some "hello world" ∧
    (transcribe_handler
      { mkstemp := .ok "/tmp/tmpabc.wav", readUpload := .ok [82, 73],
        writeTmp := .ok (),
        modelTranscribe := .ok ([⟨" hello "⟩, ⟨"world "⟩], ⟨"en", 2718 / 1000⟩),
        tmpVanished := false }).duration = some (272 / 100) := by
  have h := transcribe_success_response
    { mkstemp := .ok "/tmp/tmpabc.wav", readUpload := .ok [82, 73],
      writeTmp := .ok (),
      modelTranscribe := .ok ([⟨" hello "⟩, ⟨"world "⟩], ⟨"en", 2718 / 1000⟩),
      tmpVanished := false }
    "/tmp/tmpabc.wav" [82, 73] [⟨" hello "⟩, ⟨"world "⟩] ⟨"en", 2718 / 1000⟩
    rfl rfl rfl rfl
  refine ⟨h.1, ?_, ?_⟩
  · rw [h.2.1]
    decide
  · rw [h.2.2.2]
    norm_num [round2, roundHalfEven]

/-- C6: on every request in which some step of the try block raises, the
handler responds with status 500 and `detail` equal to that exception's
message. -/
theorem transcribe_error_response (env : ServerEnv) (e : String)
    (h : firstError env = some e) :
    (transcribe_handler env).status = 500 ∧
    (transcribe_handler env).detail = some e := by
  obtain ⟨m, r, w, t, v⟩ := env
  cases m with
  | error e0 => simp_all [transcribe_handler, firstError, errorOutcome]
  | ok p =>
    cases r with
    | error e0 => simp_all [transcribe_handler, firstError, errorOutcome]
    | ok c =>
      cases w with
      | error e0 => simp_all [transcribe_handler, firstError, errorOutcome]
      | ok u =>
        cases t with
        | error e0 => simp_all [transcribe_handler, firstError, errorOutcome]
        | ok st => simp_all [firstError]

/-- Witness for C6: the model call raises "Invalid wav header". -/
theorem transcribe_error_response_witness :
    (transcribe_handler
      { mkstemp := .ok "/tmp/tmpabc.wav", readUpload := .ok [0],
        writeTmp := .ok (), modelTranscribe := .error "Invalid wav header",
        tmpVanished := false }).status = 500 ∧
    (transcribe_handler
      { mkstemp := .ok "/tmp/tmpabc.wav", readUpload := .ok [0],
        writeTmp := .ok (), modelTranscribe := .error "Invalid wav header",
        tmpVanished := false }).detail = some "Invalid wav header" :=
  transcribe_error_response _ "Invalid wav header" (by rfl)

/-! ## Client main loop (`voice_notes.py`)

Client-side strings are modelled as lists of characters (`Str`), since
Python `str` indexes and slices by code point; Lean string literals are
converted with `.data`. One iteration of `main`'s `while` loop (after the
operator pressed Enter rather than `q`) is modelled as a function of an
environment recording the outcome of each effectful step; the observable
behaviour is a list of events (console prints, network requests, the note
write) plus whether an uncaught exception escaped the iteration. -/

/-- Client-side strings: Python `str` as a list of code points. -/
abbrev Str := List Char

/-- Concatenation of the captured frames, `np.concatenate(frames, axis=0)`. -/
def concatFrames : List (List Int) → List Int
  | [] => []
  | f :: rest => f ++ concatFrames rest

/-- `record_audio` (lines 44-65) as a function of the frames the capture
callback appended: the empty array when no frames arrived (lines 62-63),
otherwise the concatenation of the frames in arrival order (line 65). -/
def record_audio (frames : List (List Int)) : List Int :=
  if frames = [] then [] else concatFrames frames

/-- The console preview of a transcript (line 164):
`transcript[:200]` followed by `'...'` exactly when
`len(transcript) > 200`. -/
def preview (transcript : Str) : Str :=
  transcript.take 200 ++ (if 200 < transcript.length then "...".data else [])

/-- A local timestamp as produced by `datetime.now()`, to the precision the
client uses (seconds). -/
structure Timestamp where
  year : Nat
  month : Nat
  day : Nat
  hour : Nat
  minute : Nat
  second : Nat

/-- Zero-padded decimal rendering of a field, as `strftime` does. -/
def padZero (width n : Nat) : Str :=
  let s := (toString n).data
  List.replicate (width - s.length) '0' ++ s

/-- `now.strftime("%Y-%m-%d-%H%M")` (line 113): the filename stamp, with
minute precision (seconds are dropped). -/
def fmtFileStamp (t : Timestamp) : Str :=
  padZero 4 t.year ++ "-".data ++ padZero 2 t.month ++ "-".data ++
  padZero 2 t.day ++ "-".data ++ padZero 2 t.hour ++ padZero 2 t.minute

/-- `now.strftime("%Y-%m-%d %H:%M")` (line 116): the heading stamp. -/
def fmtHeadingStamp (t : Timestamp) : Str :=
  padZero 4 t.year ++ "-".data ++ padZero 2 t.month ++ "-".data ++
  padZero 2 t.day ++ " ".data ++ padZero 2 t.hour ++ ":".data ++ padZero 2 t.minute

/-- The note filename (line 113): filename stamp plus the fixed suffix. -/
def noteFilename (t : Timestamp) : Str :=
  fmtFileStamp t ++ "-meeting-notes.md".data

/-- Decimal rendering of the rational interpolated for `{duration}` in the
note template (line 118); no claim inspects the rendering itself. -/
def ratStr (q : ℚ) : Str := (toString q).data

/-- The note file content (lines 116-130): the f-string template with the
heading stamp, duration metadata line, formatted notes, and the collapsible
raw-transcript section interpolated. -/
def noteContent (now : Timestamp) (duration : ℚ) (formatted transcript : Str) : Str :=
  "# Meeting Notes - ".data ++ fmtHeadingStamp now ++
  "\n\n> Duration: ".data ++ ratStr duration ++
  "s | Transcribed with Whisper + llama3.1\n\n".data ++ formatted ++
  "\n\n---\n\n<details>\n<summary>Raw Transcript</summary>\n\n".data ++ transcript ++
  "\n\n</details>\n".data

/-- The output directory's contents: path to file content. -/
def FileSys := Str → Option Str

/-- `save_notes` (lines 108-132): builds the filepath from the timestamp
and writes the note content there (`filepath.write_text` overwrites an
existing file). Returns the updated filesystem and the filepath. -/
def save_notes (fs : FileSys) (outputDir : Str) (now : Timestamp)
    (formatted transcript : Str) (duration : ℚ) : FileSys × Str :=
  let filepath := outputDir ++ "/".data ++ noteFilename now
  (fun p => if p = filepath
    then some (noteContent now duration formatted transcript) else fs p,
   filepath)

/-- The exceptions distinguished by `main`'s except clauses (lines
170-175): `requests.ConnectionError`, `requests.HTTPError` (carrying the
response's status code and body), and any other exception (carrying its
message). -/
inductive ClientError where
  | connectionError : ClientError
  | httpError : Nat → Str → ClientError
  | other : Str → ClientError

/-- Decimal rendering of a natural number. -/
def natStr (n : Nat) : Str := (toString n).data

/-- The message printed by the except clause handling each error class
(lines 170-175). -/
def errMsg : ClientError → Str
  | .connectionError =>
      "  ERROR: Cannot reach server. Is the Whisper server running?".data
  | .httpError status body =>
      "  ERROR: Server returned ".data ++ natStr status ++ ": ".data ++ body
  | .other msg => "  ERROR: ".data ++ msg

/-- The parsed JSON body of a successful transcription response (fields
`text`, `language`, `duration` read in lines 162-167). -/
structure TransResult where
  text : Str
  language : Str
  duration : ℚ

/-- `MEETING_PROMPT` (lines 21-41) up to its trailing placeholder; the
placeholder sits at the very end of the template, so
`MEETING_PROMPT.format(transcript=transcript)` is this text followed by
the transcript. -/
def meetingPromptPre : Str :=
  ("You are a meeting notes formatter. Given a raw voice transcript, " ++
   "produce clean structured meeting notes in markdown. Include these " ++
   "sections only if relevant content exists:\n\n## Attendees\n" ++
   "- (list if mentioned)\n\n## Key Points\n- (main topics discussed)\n\n" ++
   "## Action Items\n- [ ] (tasks assigned, with owner if mentioned)\n\n" ++
   "## Decisions\n- (decisions made)\n\n## Notes\n" ++
   "- (anything else noteworthy)\n\nKeep it concise. Do not add " ++
   "information that wasn't in the transcript. If the transcript is short " ++
   "or informal, keep the notes proportionally brief.\n\nRaw transcript:\n").data

/-- The prompt posted to the text-generation endpoint (line 99). -/
def promptFor (transcript : Str) : Str := meetingPromptPre ++ transcript

/-- Observable events of one loop iteration: console prints, the two
outbound requests, and the note write. -/
inductive ClientEvent where
  | printed : Str → ClientEvent
  | transcribeRequest : List Nat → ClientEvent
  | formatRequest : Str → ClientEvent
  | noteWritten : Str → Str → ClientEvent
deriving DecidableEq

/-- Environment of one loop iteration: the outcome of each effectful step,
were it reached. -/
structure ClientEnv where
  /-- Frames delivered by the capture callback, or the message of an
  exception raised while recording (e.g. by the audio subsystem). -/
  captureResult : Except Str (List (List Int))
  /-- Outcome of the `transcribe` call: the parsed response, or an error. -/
  transcribeResp : Except ClientError TransResult
  /-- Outcome of the `format_notes` call: the `response` field, or an
  error. -/
  formatResp : Except ClientError Str
  /-- `some msg` when `save_notes` raises with that message, else `none`. -/
  saveResult : Option Str
  /-- `datetime.now()` at save time. -/
  now : Timestamp
  /-- The output directory (`OBSIDIAN_VAULT`). -/
  outputDir : Str
  /-- The filesystem before the iteration. -/
  fs : FileSys

/-- Result of one loop iteration. -/
structure IterationOutcome where
  /-- The observable events, in order. -/
  events : List ClientEvent
  /-- `some msg` when an uncaught exception escaped the iteration (fatal to
  the process), `none` when control returns to the prompt. -/
  fatal : Option Str
  /-- The filesystem after the iteration. -/
  fs : FileSys

/-- One iteration of `main`'s while loop after the operator pressed Enter
(lines 150-175): record; on empty capture print and continue; otherwise
encode and, inside the try block, transcribe, preview, format, and save,
with the three except clauses mapping errors to messages. `record_audio`
runs outside the try block, so an exception there escapes the loop. -/
def runIteration (env : ClientEnv) : IterationOutcome :=
  match env.captureResult with
  | .error e => { events := [], fatal := some e, fs := env.fs }
  | .ok frames =>
    let audio := record_audio frames
    if audio.length = 0 then
      { events := [.printed "  No audio captured, try again.".data],
        fatal := none, fs := env.fs }
    else
      let wav := audio_to_wav_bytes audio
      match env.transcribeResp with
      | .error err =>
        { events := [.transcribeRequest wav, .printed (errMsg err)],
          fatal := none, fs := env.fs }
      | .ok result =>
        let previewLine := "  ".data ++ preview result.text
        match env.formatResp with
        | .error err =>
          { events := [.transcribeRequest wav, .printed previewLine,
              .formatRequest (promptFor result.text), .printed (errMsg err)],
            fatal := none, fs := env.fs }
        | .ok formatted =>
          match env.saveResult with
          | some e =>
            { events := [.transcribeRequest wav, .printed previewLine,
                .formatRequest (promptFor result.text),
                .printed (errMsg (.other e))],
              fatal := none, fs := env.fs }
          | none =>
            let saved := save_notes env.fs env.outputDir env.now formatted
              result.text result.duration
            { events := [.transcribeRequest wav, .printed previewLine,
                .formatRequest (promptFor result.text),
                .noteWritten saved.2
                  (noteContent env.now result.duration formatted result.text)],
              fatal := none, fs := saved.1 }

/-- `round(x, 1)` (line 155): round to 1 decimal place, half to even. -/
def round1 (q : ℚ) : ℚ := (roundHalfEven (q * 10) : ℚ) / 10

/-- The client's locally computed capture duration (line 155):
`round(len(audio) / SAMPLE_RATE, 1)`. -/
def clientDuration (audio : List Int) : ℚ :=
  round1 ((audio.length : ℚ) / 16000)

/-- C3: a capture session producing zero frames issues no network call —
the iteration's only event is the distinct "No audio captured" message and
the loop continues — and conversely every transcription request that is
issued carries the encoding of a sample sequence with sample count > 0. -/
theorem empty_capture_no_network (env : ClientEnv) :
    (env.captureResult = .ok [] →
      (runIteration env).events
          = [.printed "  No audio captured, try again.".data] ∧
      (runIteration env).fatal = none) ∧
    (∀ w, ClientEvent.transcribeRequest w ∈ (runIteration env).events →
      ∃ audio : List Int, 0 < audio.length ∧ w = audio_to_wav_bytes audio) := by
  obtain ⟨cap, tr, fr, sv, now, dir, fs⟩ := env
  refine ⟨fun h => ?_, fun w hw => ?_⟩
  · dsimp only at h
    subst h
    simp [runIteration, record_audio]
  · cases cap with
    | error e => simp [runIteration] at hw
    | ok frames =>
      by_cases hlen : (record_audio frames).length = 0
      · simp [runIteration, hlen] at hw
      · refine ⟨record_audio frames, Nat.pos_of_ne_zero hlen, ?_⟩
        cases tr with
        | error err => simpa [runIteration, hlen] using hw
        | ok result =>
          cases fr with
          | error err => simpa [runIteration, hlen] using hw
          | ok formatted =>
            cases sv with
            | some e => simpa [runIteration, hlen] using hw
            | none => simpa [runIteration, hlen] using hw

/-- Witness for C3: an iteration whose capture produced zero frames. -/
theorem empty_capture_no_network_witness :
    (runIteration
      { captureResult := .ok [], transcribeResp := .error .connectionError,
        formatResp := .error .connectionError, saveResult := none,
        now := ⟨2026, 10, 12, 9, 30, 0⟩, outputDir := "vault".data,
        fs := fun _ => none }).events
        = [.printed "  No audio captured, try again.".data] ∧
    (runIteration
      { captureResult := .ok [], transcribeResp := .error .connectionError,
        formatResp := .error .connectionError, saveResult := none,
        now := ⟨2026, 10, 12, 9, 30, 0⟩, outputDir := "vault".data,
        fs := fun _ => none }).fatal = none :=
  (empty_capture_no_network _).1 rfl

/-- C5: a transcript longer than 200 characters is previewed as exactly its
first 200 characters followed by the ellipsis marker while the note file
still receives it untruncated; a transcript of at most 200 characters is
previewed in full. -/
theorem preview_truncation (t : Str) :
    (200 < t.length →
      preview t = t.take 200 ++ "...".data ∧
      ∀ now d f, ∃ pre post, noteContent now d f t = pre ++ t ++ post) ∧
    (t.length ≤ 200 → preview t = t) := by
  refine ⟨fun h => ⟨by simp [preview, h], fun now d f => ?_⟩, fun h => ?_⟩
  · exact ⟨"# Meeting Notes - ".data ++ fmtHeadingStamp now ++
      "\n\n> Duration: ".data ++ ratStr d ++
      "s | Transcribed with Whisper + llama3.1\n\n".data ++ f ++
      "\n\n---\n\n<details>\n<summary>Raw Transcript</summary>\n\n".data,
      "\n\n</details>\n".data, by simp [noteContent, List.append_assoc]⟩
  · simp [preview, Nat.not_lt.mpr h, List.take_of_length_le h]

/-- Witness for C5: a 201-character transcript is truncated with the
marker; a short transcript is previewed in full. -/
theorem preview_truncation_witness :
    preview (List.replicate 201 'a')
        = (List.replicate 201 'a').take 200 ++ "...".data ∧
    preview "hello".data = "hello".data :=
  ⟨((preview_truncation (List.replicate 201 'a')).1
      (by rw [List.length_replicate]; omega)).1,
   (preview_truncation "hello".data).2 (by decide)⟩

/-- C7 counterexample: an exception raised by the capture step of a loop
iteration (which runs outside `main`'s try block) is not caught — it
escapes the iteration and is fatal to the client process, refuting the
claim that every exception raised during a loop iteration is caught. -/
theorem capture_exception_fatal :
    (runIteration
      { captureResult := .error "PortAudioError: no default input device".data,
        transcribeResp := .error .connectionError,
        formatResp := .error .connectionError, saveResult := none,
        now := ⟨2026, 10, 12, 9, 30, 0⟩, outputDir := "vault".data,
        fs := fun _ => none }).fatal
      = some "PortAudioError: no default input device".data := rfl

/-- C7 (amended): every exception raised during the transcription,
formatting, or saving phase of a loop iteration (the phase inside the try
block) is caught — transport failure, non-success HTTP response, and any
other exception each produce their own printed message — the iteration is
never fatal there and the loop returns to the prompt; only exceptions
raised during the capture phase escape. -/
theorem loop_error_handling (env : ClientEnv) (frames : List (List Int))
    (h : env.captureResult = .ok frames) :
    (runIteration env).fatal = none ∧
    (∀ err, 0 < (record_audio frames).length →
      env.transcribeResp = .error err →
      ClientEvent.printed (errMsg err) ∈ (runIteration env).events) ∧
    (∀ err result, 0 < (record_audio frames).length →
      env.transcribeResp = .ok result → env.formatResp = .error err →
      ClientEvent.printed (errMsg err) ∈ (runIteration env).events) ∧
    (∀ e result formatted, 0 < (record_audio frames).length →
      env.transcribeResp = .ok result → env.formatResp = .ok formatted →
      env.saveResult = some e →
      ClientEvent.printed (errMsg (.other e)) ∈ (runIteration env).events) := by
  obtain ⟨cap, tr, fr, sv, now, dir, fs⟩ := env
  dsimp only at h
  subst h
  refine ⟨?_, fun err hlen htr => ?_, fun err result hlen htr hfr => ?_,
    fun e result formatted hlen htr hfr hsv => ?_⟩
  · by_cases hlen : (record_audio frames).length = 0
    · simp [runIteration, hlen]
    · cases tr with
      | error err => simp [runIteration, hlen]
      | ok result =>
        cases fr with
        | error err => simp [runIteration, hlen]
        | ok formatted =>
          cases sv with
          | some e => simp [runIteration, hlen]
          | none => simp [runIteration, hlen]
  · dsimp only at htr
    subst htr
    simp [runIteration, Nat.pos_iff_ne_zero.mp hlen]
  · dsimp only at htr hfr
    subst htr
    subst hfr
    simp [runIteration, Nat.pos_iff_ne_zero.mp hlen]
  · dsimp only at htr hfr hsv
    subst htr
    subst hfr
    subst hsv
    simp [runIteration, Nat.pos_iff_ne_zero.mp hlen]

/-- Witness for C7 (amended): a non-empty capture whose transcription call
fails with a transport error is caught, its message printed, and the
iteration is not fatal. -/
theorem loop_error_handling_witness :
    (runIteration
      { captureResult := .ok [[1, 2]], transcribeResp := .error .connectionError,
        formatResp := .error .connectionError, saveResult := none,
        now := ⟨2026, 10, 12, 9, 30, 0⟩, outputDir := "vault".data,
        fs := fun _ => none }).fatal = none ∧
    ClientEvent.printed (errMsg .connectionError)
      ∈ (runIteration
      { captureResult := .ok [[1, 2]], transcribeResp := .error .connectionError,
        formatResp := .error .connectionError, saveResult := none,
        now := ⟨2026, 10, 12, 9, 30, 0⟩, outputDir := "vault".data,
        fs := fun _ => none }).events := by
  have h := loop_error_handling
    { captureResult := .ok [[1, 2]], transcribeResp := .error .connectionError,
      formatResp := .error .connectionError, saveResult := none,
      now := ⟨2026, 10, 12, 9, 30, 0⟩, outputDir := "vault".data,
      fs := fun _ => none } [[1, 2]] rfl
  exact ⟨h.1, h.2.1 .connectionError (by decide) rfl⟩

/-- C8: the note file content is the text-generation response verbatim,
followed by a collapsible details section whose body is the raw transcript
verbatim. -/
theorem note_contains_formatted_and_transcript
    (now : Timestamp) (d : ℚ) (formatted transcript : Str) :
    ∃ pre, noteContent now d formatted transcript =
      pre ++ formatted ++
      "\n\n---\n\n<details>\n<summary>Raw Transcript</summary>\n\n".data ++
      transcript ++ "\n\n</details>\n".data :=
  ⟨"# Meeting Notes - ".data ++ fmtHeadingStamp now ++
    "\n\n> Duration: ".data ++ ratStr d ++
    "s | Transcribed with Whisper + llama3.1\n\n".data,
   by simp [noteContent, List.append_assoc]⟩

/-- C9: the note file path is `<output_dir>/<YYYY-MM-DD-HHMM>-meeting-notes.md`
built from the local timestamp with minute precision, so two recordings
completing within the same clock-minute (even at different seconds) map to
the same path and the second silently overwrites the first. -/
theorem same_minute_overwrite (fs : FileSys) (dir : Str) (t1 t2 : Timestamp)
    (f1 tr1 f2 tr2 : Str) (d1 d2 : ℚ)
    (hy : t1.year = t2.year) (hmo : t1.month = t2.month)
    (hd : t1.day = t2.day) (hh : t1.hour = t2.hour)
    (hmi : t1.minute = t2.minute) :
    (save_notes fs dir t1 f1 tr1 d1).2
        = dir ++ "/".data ++
          (padZero 4 t1.year ++ "-".data ++ padZero 2 t1.month ++ "-".data ++
           padZero 2 t1.day ++ "-".data ++ padZero 2 t1.hour ++
           padZero 2 t1.minute ++ "-meeting-notes.md".data) ∧
    (save_notes fs dir t1 f1 tr1 d1).2 = (save_notes fs dir t2 f2 tr2 d2).2 ∧
    (save_notes (save_notes fs dir t1 f1 tr1 d1).1 dir t2 f2 tr2 d2).1
        (save_notes fs dir t1 f1 tr1 d1).2
      = some (noteContent t2 d2 f2 tr2) := by
  have hname : noteFilename t1 = noteFilename t2 := by
    simp [noteFilename, fmtFileStamp, hy, hmo, hd, hh, hmi]
  refine ⟨?_, ?_, ?_⟩
  · simp [save_notes, noteFilename, fmtFileStamp, List.append_assoc]
  · simp [save_notes, hname]
  · simp [save_notes, hname]

/-- Witness for C9: two recordings at 09:30:15 and 09:30:45 of the same day
collide on one path; the file afterwards holds the second note. -/
theorem same_minute_overwrite_witness :
    (save_notes (fun _ => none) "vault".data ⟨2026, 10, 12, 9, 30, 15⟩
        "A".data "a".data 1).2
      = (save_notes (fun _ => none) "vault".data ⟨2026, 10, 12, 9, 30, 45⟩
        "B".data "b".data 2).2 ∧
    (save_notes (save_notes (fun _ => none) "vault".data
        ⟨2026, 10, 12, 9, 30, 15⟩ "A".data "a".data 1).1
        "vault".data ⟨2026, 10, 12, 9, 30, 45⟩ "B".data "b".data 2).1
        (save_notes (fun _ => none) "vault".data ⟨2026, 10, 12, 9, 30, 15⟩
          "A".data "a".data 1).2
      = some (noteContent ⟨2026, 10, 12, 9, 30, 45⟩ 2 "B".data "b".data) := by
  have h := same_minute_overwrite (fun _ => none) "vault".data
    ⟨2026, 10, 12, 9, 30, 15⟩ ⟨2026, 10, 12, 9, 30, 45⟩
    "A".data "a".data "B".data "b".data 1 2 rfl rfl rfl rfl rfl
  exact ⟨h.2.1, h.2.2⟩

/-- C10: the duration written into the note's metadata is the
server-reported `duration` field of the transcription response, not the
client's locally computed capture duration — even on recordings where the
two differ, the note carries the server's value. -/
theorem note_uses_server_duration (env : ClientEnv) (frames : List (List Int))
    (result : TransResult) (formatted : Str)
    (h1 : env.captureResult = .ok frames)
    (h2 : 0 < (record_audio frames).length)
    (h3 : env.transcribeResp = .ok result)
    (h4 : env.formatResp = .ok formatted)
    (h5 : env.saveResult = none)
    (hdiff : clientDuration (record_audio frames) ≠ result.duration) :
    ClientEvent.noteWritten
        (env.outputDir ++ "/".data ++ noteFilename env.now)
        (noteContent env.now result.duration formatted result.text)
      ∈ (runIteration env).events ∧
    (runIteration env).fs (env.outputDir ++ "/".data ++ noteFilename env.now)
      = some (noteContent env.now result.duration formatted result.text) := by
  obtain ⟨cap, tr, fr, sv, now, dir, fs⟩ := env
  dsimp only at h1 h3 h4 h5 ⊢
  subst h1
  subst h3
  subst h4
  subst h5
  simp [runIteration, Nat.pos_iff_ne_zero.mp h2, save_notes]

/-- Witness for C10: a two-sample capture (locally 0.0 s) whose server
response reports 2.5 s; the note carries 2.5. -/
theorem note_uses_server_duration_witness :
    ClientEvent.noteWritten
        ("vault".data ++ "/".data ++ noteFilename ⟨2026, 10, 12, 9, 30, 0⟩)
        (noteContent ⟨2026, 10, 12, 9, 30, 0⟩ (5 / 2) "## Key Points".data
          "hi".data)
      ∈ (runIteration
      { captureResult := .ok [[1, 2]],
        transcribeResp := .ok ⟨"hi".data, "en".data, 5 / 2⟩,
        formatResp := .ok "## Key Points".data, saveResult := none,
        now := ⟨2026, 10, 12, 9, 30, 0⟩, outputDir := "vault".data,
        fs := fun _ => none }).events := by
  have h := note_uses_server_duration
    { captureResult := .ok [[1, 2]],
      transcribeResp := .ok ⟨"hi".data, "en".data, 5 / 2⟩,
      formatResp := .ok "## Key Points".data, saveResult := none,
      now := ⟨2026, 10, 12, 9, 30, 0⟩, outputDir := "vault".data,
      fs := fun _ => none } [[1, 2]] ⟨"hi".data, "en".data, 5 / 2⟩
    "## Key Points".data rfl (by decide) rfl rfl rfl
    (by norm_num [clientDuration, record_audio, concatFrames, round1,
      roundHalfEven])
  exact h.1

end VoiceTranscriber
